import Mathlib

set_option maxRecDepth 4000

/-!
Verification of the message-layer core of libnvme's NVMe-MI library:
`mi.c` (CRC engine, generic submit pipeline, Admin/MI command layers)
and `mi-mctp.c` (the MCTP transport).

Shallow embedding conventions: machine integers are `Nat` (all values
stay below `2^32` where the C code relies on 32-bit arithmetic, and the
bit operations used — xor, shift right, and, or — cannot overflow);
byte spans are `List Nat`; fallible C functions returning `int` are
modelled as records carrying the returned value (`Int`), the `errno`
value they set (`0` when untouched), and booleans/counters tracing which
side effects occurred (transport invocation, `sendmsg`, tag
allocation/drop).  The MCTP receive path is driven by an environment
supplying one event per `poll(2)` call; a received datagram is the
function from logical byte position (with the MCTP type byte restored at
position 0) to byte value.
-/

/-- Linux errno value for EINVAL. -/
def EINVAL : Nat := 22

/-- Linux errno value for EPROTO. -/
def EPROTO : Nat := 71

/-- Linux errno value for EIO. -/
def EIO_errno : Nat := 5

/-- Linux errno value for ETIMEDOUT. -/
def ETIMEDOUT : Nat := 110

/-- Linux errno value for EINTR. -/
def EINTR : Nat := 4

/-- Modelled from the spec: `NVME_MI_MSGTYPE_NVME` (§6: the type byte is
0x84 = NVMe-MI message class 0x04 with the MIC-present bit 0x80); the
defining header `mi.h` is not among the sources. -/
def NVME_MI_MSGTYPE_NVME : Nat := 0x84

/-- Modelled from the spec: the More Processing Required response status
code (`NVME_MI_RESP_MPR`, declared in `mi.h` which is absent from the
sources).  No theorem below depends on its numeric value. -/
def NVME_MI_RESP_MPR : Nat := 0x08

/-- Modelled from the spec: `sizeof(struct nvme_mi_msg_hdr)`, the minimal
4-byte common message header (`private.h` is absent from the sources;
the value is fixed by the "generic 4-byte message header" comment in
`mi-mctp.c` and §3/§6 of the spec). -/
def nvme_mi_msg_hdr_size : Nat := 4

/-- Modelled from the spec: `sizeof(struct nvme_mi_msg_resp)`, the
minimal header plus four status/error bytes ("The smallest response data
is 8 bytes" comment in `mi-mctp.c`). -/
def nvme_mi_msg_resp_size : Nat := 8

/-- Size of `struct nvme_mi_msg_resp_mpr` (declared in `mi-mctp.c`): the
4-byte message header, a status byte, a reserved byte, a 16-bit `mprt`. -/
def nvme_mi_msg_resp_mpr_size : Nat := 8

/-- Modelled from the spec: `sizeof(struct nvme_get_log_args)`; the
structure is declared in headers absent from the sources and only its
size takes part in the `args_size` validity check. -/
def nvme_get_log_args_size : Nat := 64

/-- Modelled from the spec: `sizeof(struct nvme_identify_args)`; as for
the Get Log Page arguments only its size is checked. -/
def nvme_identify_args_size : Nat := 56

/-- Little-endian decoding of two bytes. -/
def le16 (b0 b1 : Nat) : Nat := b0 + 256 * b1

/-- Little-endian decoding of four bytes. -/
def le32 (b0 b1 b2 b3 : Nat) : Nat :=
  b0 + 256 * b1 + 65536 * b2 + 16777216 * b3

/-- Bitwise complement of a 32-bit value (C `~` on `__u32`). -/
def compl32 (c : Nat) : Nat := c ^^^ 0xffffffff

/-- One round of the inner loop of `nvme_mi_crc32_update` (mi.c):
`crc = (crc >> 1) ^ ((crc & 1) ? 0x82F63B78 : 0)`. -/
def crcShift (c : Nat) : Nat :=
  if c &&& 1 = 1 then (c >>> 1) ^^^ 0x82F63B78 else c >>> 1

/-- Eight applications of `crcShift` (the `for (i = 0; i < 8; i++)`
loop of `nvme_mi_crc32_update`). -/
def crcRounds : Nat → Nat → Nat
  | 0, c => c
  | n + 1, c => crcRounds n (crcShift c)

/-- `nvme_mi_crc32_update` (mi.c): fold each byte of the span into the
accumulator by XOR, then run eight shift rounds. -/
def nvme_mi_crc32_update (crc : Nat) (data : List Nat) : Nat :=
  data.foldl (fun c b => crcRounds 8 (c ^^^ b)) crc

/-- `nvme_mi_calc_req_mic` (mi.c) as a function of the header and payload
byte spans: two incremental CRC passes from `0xffffffff`, complemented. -/
def nvme_mi_calc_req_mic (hdr data : List Nat) : Nat :=
  compl32 (nvme_mi_crc32_update (nvme_mi_crc32_update 0xffffffff hdr) data)

/-- The MIC as the spec words it (§8 property 1): the complement of a
single reflected CRC-32C pass over `h ++ p`. -/
def micSpec (h p : List Nat) : Nat :=
  compl32 (nvme_mi_crc32_update 0xffffffff (h ++ p))

/-- A request or response frame of the submit pipeline (`struct
nvme_mi_req` / `struct nvme_mi_resp`): header span, payload span and MIC
word.  The header/payload lengths are the list lengths. -/
structure Frame where
  hdr : List Nat
  data : List Nat
  mic : Nat

/-- First header byte: the message type field. -/
def Frame.typeByte (f : Frame) : Nat := f.hdr.getD 0 0

/-- Second header byte: the `nmp` field (ROR bit 7, class bits 6:3,
command slot bit 0). -/
def Frame.nmpByte (f : Frame) : Nat := f.hdr.getD 1 0

/-- The MIC the library would compute for this frame. -/
def Frame.micCalc (f : Frame) : Nat := nvme_mi_calc_req_mic f.hdr f.data

/-- `nvme_mi_verify_resp_mic` (mi.c): the C expression
`resp->mic != ~crc`, so 1 on mismatch and 0 on a correct MIC. -/
def nvme_mi_verify_resp_mic (f : Frame) : Nat :=
  if f.mic ≠ f.micCalc then 1 else 0

/-- Outcome of a transport `submit` callback: an error return with an
errno, or success having laid out the received response frame. -/
inductive TransportOut where
  | terr (rc : Int) (e : Nat)
  | tok (resp : Frame)

/-- Result of `nvme_mi_submit`: return value, errno set (0 when
untouched), whether the transport was invoked, and the response frame
as left for the caller. -/
structure SubmitRes where
  ret : Int
  err : Nat
  called : Bool
  resp : Frame

/-- The part of `nvme_mi_submit` (mi.c) after the six pre-checks: MIC
stamping, the transport call, MIC verification and the response header
sanity checks. -/
def nvme_mi_submit_xfer (micEnabled : Bool)
    (transport : Frame → Frame → TransportOut) (req resp : Frame) : SubmitRes :=
  match transport (if micEnabled then { req with mic := req.micCalc } else req) resp with
  | .terr rc e => ⟨rc, e, true, resp⟩
  | .tok resp' =>
    if micEnabled ∧ nvme_mi_verify_resp_mic resp' ≠ 0 then
      ⟨(nvme_mi_verify_resp_mic resp' : Int), 0, true, resp'⟩
    else if resp'.hdr.length < nvme_mi_msg_hdr_size then ⟨-1, EPROTO, true, resp'⟩
    else if resp'.typeByte ≠ NVME_MI_MSGTYPE_NVME then ⟨-1, EPROTO, true, resp'⟩
    else if resp'.nmpByte &&& 0x80 = 0 then ⟨-1, EIO_errno, true, resp'⟩
    else if resp'.nmpByte &&& 1 ≠ req.nmpByte &&& 1 then ⟨-1, EIO_errno, true, resp'⟩
    else ⟨0, 0, true, resp'⟩

/-- `nvme_mi_submit` (mi.c): the six length/alignment pre-checks, then
the transfer. -/
def nvme_mi_submit (micEnabled : Bool)
    (transport : Frame → Frame → TransportOut) (req resp : Frame) : SubmitRes :=
  if req.hdr.length < nvme_mi_msg_hdr_size then ⟨-1, EINVAL, false, resp⟩
  else if req.hdr.length % 4 ≠ 0 then ⟨-1, EINVAL, false, resp⟩
  else if req.data.length % 4 ≠ 0 then ⟨-1, EINVAL, false, resp⟩
  else if resp.hdr.length < nvme_mi_msg_hdr_size then ⟨-1, EINVAL, false, resp⟩
  else if resp.hdr.length % 4 ≠ 0 then ⟨-1, EINVAL, false, resp⟩
  else if resp.data.length % 4 ≠ 0 then ⟨-1, EINVAL, false, resp⟩
  else nvme_mi_submit_xfer micEnabled transport req resp

/-- The six length/alignment invariants checked by `nvme_mi_submit`
before any transport call. -/
def sixInvariants (req resp : Frame) : Prop :=
  nvme_mi_msg_hdr_size ≤ req.hdr.length ∧ req.hdr.length % 4 = 0 ∧
  req.data.length % 4 = 0 ∧
  nvme_mi_msg_hdr_size ≤ resp.hdr.length ∧ resp.hdr.length % 4 = 0 ∧
  resp.data.length % 4 = 0

instance sixInvariantsDecidable (req resp : Frame) :
    Decidable (sixInvariants req resp) := by
  unfold sixInvariants
  infer_instance

/-- Outcome of the `nvme_mi_submit` call made by an Admin command, as
seen by the command layer: a pipeline/transport failure with errno, or
success with the response status byte, `cdw0` and received data length. -/
inductive AdminOut where
  | aerr (rc : Int) (e : Nat)
  | aok (status : Nat) (cdw0 : Nat) (dataLen : Nat)

/-- Return value and errno of an Admin command layer function. -/
structure AdminRes where
  ret : Int
  err : Nat

/-- `nvme_mi_admin_identify_partial` (mi.c), abstracted over the outcome
of its `nvme_mi_submit` call: argument checks, propagation of submit
failures, a non-zero response status byte returned verbatim, then the
all-or-nothing length check. -/
def nvme_mi_admin_identify_part (argsSize size : Nat) (out : AdminOut) :
    AdminRes :=
  if argsSize < nvme_identify_args_size then ⟨-1, EINVAL⟩
  else if size = 0 ∨ 0xffffffff < size then ⟨-1, EINVAL⟩
  else match out with
    | .aerr rc e => ⟨rc, e⟩
    | .aok st _ dl =>
      if st ≠ 0 then ⟨(st : Int), 0⟩
      else if dl ≠ size then ⟨-1, EPROTO⟩
      else ⟨0, 0⟩

/-- Outcome of the `nvme_mi_submit` call made by `nvme_mi_admin_xfer`. -/
inductive XferOut where
  | xerr (rc : Int) (e : Nat)
  | xok (newLen : Nat)

/-- Result of `nvme_mi_admin_xfer`: return value, errno, whether the
submit pipeline (and hence any transport I/O) was reached at all, and
the response data size reported back. -/
structure XferRes where
  ret : Int
  err : Nat
  reachedSubmit : Bool
  respLen : Nat

/-- `nvme_mi_admin_xfer` (mi.c), abstracted over the outcome of its
`nvme_mi_submit` call: the Admin-specific length/offset/directionality
checks in source order, then delegation. -/
def nvme_mi_admin_xfer (reqDataSize respDataSize : Nat) (respDataOffset : Int)
    (out : XferOut) : XferRes :=
  if 4096 < respDataSize then ⟨-1, EINVAL, false, respDataSize⟩
  else if 0xffffffff < respDataOffset then ⟨-1, EINVAL, false, respDataSize⟩
  else if respDataOffset.emod 4 ≠ 0 then ⟨-1, EINVAL, false, respDataSize⟩
  else if reqDataSize ≠ 0 ∧ respDataSize ≠ 0 then ⟨-1, EINVAL, false, respDataSize⟩
  else if respDataSize = 0 ∧ respDataOffset ≠ 0 then ⟨-1, EINVAL, false, respDataSize⟩
  else match out with
    | .xerr rc e => ⟨rc, e, true, respDataSize⟩
    | .xok n => ⟨0, 0, true, n⟩

/-- Endpoint configuration seen by the MCTP transport: the per-request
timeout and the MPR clamp, both in milliseconds. -/
structure MctpEp where
  timeout : Nat
  mprtMax : Nat

/-- Sizes of the caller-supplied response header and payload buffers as
the MCTP transport receives them. -/
structure MctpResp where
  hdrLen : Nat
  dataLen : Nat

/-- One `poll(2)` outcome in the MCTP receive loop: an error with an
errno, a timeout, or readiness followed by `recvmsg` returning `n`
(negative on error, with errno `e`) and — when positive — a datagram
whose restored logical byte stream is `frame`. -/
inductive MctpEv where
  | pollErr (e : Nat)
  | pollTimeout
  | recv (n : Int) (e : Nat) (frame : Nat → Nat)

/-- Environment driving one `nvme_mi_mctp_submit` call: the `sendmsg`
result and one event per `poll` call. -/
structure MctpEnv where
  sendRes : Int
  sendErrno : Nat
  events : List MctpEv

/-- The logical byte stream of a received response after the transport
re-synthesises the type byte at position 0 (`resp->hdr->type =
MCTP_TYPE_NVME | MCTP_TYPE_MIC`). -/
def mctpRead (frame : Nat → Nat) (p : Nat) : Nat :=
  if p = 0 then NVME_MI_MSGTYPE_NVME else frame p

/-- The MIC location probed by `nvme_mi_mctp_resp_is_mpr` (mi-mctp.c):
just past the MPR message in the header buffer when the header buffer is
larger than the MPR message, else at the start of the data buffer
(logical position `hdrLen`). -/
def mprMicRead (hdrLen : Nat) (read : Nat → Nat) : Nat :=
  if nvme_mi_msg_resp_mpr_size < hdrLen then
    le32 (read 8) (read 9) (read 10) (read 11)
  else
    le32 (read hdrLen) (read (hdrLen + 1)) (read (hdrLen + 2)) (read (hdrLen + 3))

/-- The eight bytes of the advertised MPR message. -/
def mprMsgBytes (read : Nat → Nat) : List Nat :=
  [read 0, read 1, read 2, read 3, read 4, read 5, read 6, read 7]

/-- `nvme_mi_mctp_resp_is_mpr` (mi-mctp.c): length equals the MPR
response size, status byte equals the MPR status code, and the locally
computed CRC over the MPR message matches the received MIC. -/
def nvme_mi_mctp_resp_is_mpr (hdrLen L : Nat) (read : Nat → Nat) : Bool :=
  if L ≠ nvme_mi_msg_resp_mpr_size + 4 then false
  else if read 4 ≠ NVME_MI_RESP_MPR then false
  else if mprMicRead hdrLen read
      ≠ compl32 (nvme_mi_crc32_update 0xffffffff (mprMsgBytes read)) then false
  else true

/-- The `mprt` extraction of `nvme_mi_mctp_resp_is_mpr`: a 16-bit
little-endian count of 100 ms units, converted to milliseconds. -/
def mprTimeOf (read : Nat → Nat) : Nat := le16 (read 6) (read 7) * 100

/-- The MPR wait-time selection of `nvme_mi_mctp_submit` (mi-mctp.c):
fall back to the endpoint timeout or 0xffff when the device sent no
`mprt`, then clamp to `mprt_max` when that is set. -/
def nextMprWait (epTimeout mprtMax mprTime : Nat) : Nat :=
  let t := if mprTime = 0 then (if epTimeout ≠ 0 then epTimeout else 0xffff)
           else mprTime
  if mprtMax ≠ 0 ∧ mprtMax < t then mprtMax else t

/-- The MPR wait time as the spec states it (§4.3): `mprt` in
milliseconds when positive, else the endpoint timeout when positive,
else 0xFFFF; clamped to `mprt_max` whenever that is positive. -/
def specMprWait (mprt epTimeout mprtMax : Nat) : Nat :=
  let t := if 0 < mprt then mprt * 100
           else if 0 < epTimeout then epTimeout else 0xffff
  if 0 < mprtMax then min t mprtMax else t

/-- Adjusted header/payload lengths and stored MIC word. -/
structure ReconOut where
  hdrLen : Nat
  dataLen : Nat
  mic : Nat

/-- The frame-length reconciliation of `nvme_mi_mctp_submit` (mi-mctp.c):
exact-length responses keep the layout; a response shorter than the
advertised header shrinks the header and takes the MIC from inside the
header buffer; otherwise the payload shrinks and the MIC sits at the end
of the data buffer.  Buffer reads are expressed through the logical
stream `read`. -/
def mctpReconcile (hdrLen dataLen L : Nat) (read : Nat → Nat) : ReconOut :=
  if L = hdrLen + dataLen + 4 then
    ⟨hdrLen, dataLen,
      le32 (read (hdrLen + dataLen)) (read (hdrLen + dataLen + 1))
        (read (hdrLen + dataLen + 2)) (read (hdrLen + dataLen + 3))⟩
  else if L < hdrLen + 4 then
    ⟨L - 4, 0, le32 (read (L - 4)) (read (L - 3)) (read (L - 2)) (read (L - 1))⟩
  else
    ⟨hdrLen, L - hdrLen - 4,
      le32 (read (hdrLen + (L - hdrLen - 4))) (read (hdrLen + (L - hdrLen - 4) + 1))
        (read (hdrLen + (L - hdrLen - 4) + 2)) (read (hdrLen + (L - hdrLen - 4) + 3))⟩

/-- Result of the `retry`…`out` section of `nvme_mi_mctp_submit`.
`viaOut` records whether the exit path went through the `out` label
(where `nvme_mi_mctp_tag_drop` is called); `budgets` lists the timeout
passed to each `poll` call in order; `stuck` marks exhaustion of the
event list (excluded in every theorem below). -/
structure LoopRes where
  ret : Int
  err : Nat
  viaOut : Bool
  hdrLen : Nat
  dataLen : Nat
  mic : Nat
  budgets : List Int
  stuck : Bool

/-- The receive/retry loop of `nvme_mi_mctp_submit` (mi-mctp.c): poll
(EINTR restarts, errors and timeouts return directly), recvmsg, type
byte restoration, minimum-length and alignment checks, the MPR
pre-check with its wait-time update, then length reconciliation. -/
def mctpLoop (ep : MctpEp) (hdrLen dataLen : Nat) : Int → List MctpEv → LoopRes
  | t, [] => ⟨-1, 0, false, hdrLen, dataLen, 0, [t], true⟩
  | t, MctpEv.pollErr e :: rest =>
    if e = EINTR then
      let r := mctpLoop ep hdrLen dataLen t rest
      { r with budgets := t :: r.budgets }
    else ⟨-1, e, false, hdrLen, dataLen, 0, [t], false⟩
  | t, MctpEv.pollTimeout :: _ => ⟨-1, ETIMEDOUT, false, hdrLen, dataLen, 0, [t], false⟩
  | t, MctpEv.recv n e frame :: rest =>
    if n < 0 then ⟨-1, e, true, hdrLen, dataLen, 0, [t], false⟩
    else if n = 0 then ⟨-1, EIO_errno, true, hdrLen, dataLen, 0, [t], false⟩
    else if n.toNat + 1 < nvme_mi_msg_resp_size + 4 then
      ⟨-1, EPROTO, true, hdrLen, dataLen, 0, [t], false⟩
    else if (n.toNat + 1) % 4 ≠ 0 then
      ⟨-1, EPROTO, true, hdrLen, dataLen, 0, [t], false⟩
    else if nvme_mi_mctp_resp_is_mpr hdrLen (n.toNat + 1) (mctpRead frame) then
      { mctpLoop ep hdrLen dataLen
          (Int.ofNat (nextMprWait ep.timeout ep.mprtMax (mprTimeOf (mctpRead frame)))) rest with
        budgets := t :: (mctpLoop ep hdrLen dataLen
          (Int.ofNat (nextMprWait ep.timeout ep.mprtMax (mprTimeOf (mctpRead frame)))) rest).budgets }
    else
      ⟨0, 0, true, (mctpReconcile hdrLen dataLen (n.toNat + 1) (mctpRead frame)).hdrLen,
        (mctpReconcile hdrLen dataLen (n.toNat + 1) (mctpRead frame)).dataLen,
        (mctpReconcile hdrLen dataLen (n.toNat + 1) (mctpRead frame)).mic, [t], false⟩

/-- Result of `nvme_mi_mctp_submit`: return value, errno, the number of
`nvme_mi_mctp_tag_alloc` and `nvme_mi_mctp_tag_drop` invocations,
whether `sendmsg` was called, the reconciled response layout, and the
poll budgets used. -/
structure MctpRes where
  ret : Int
  err : Nat
  allocCalls : Nat
  dropCalls : Nat
  sendCalled : Bool
  hdrLen : Nat
  dataLen : Nat
  mic : Nat
  budgets : List Int
  stuck : Bool

/-- `nvme_mi_mctp_submit` (mi-mctp.c): the response-header size
pre-check, tag allocation, send, then the receive loop.  The drop count
is 1 exactly on the paths that reach the `out` label. -/
def nvme_mi_mctp_submit (ep : MctpEp) (resp : MctpResp) (env : MctpEnv) : MctpRes :=
  if resp.hdrLen < nvme_mi_msg_resp_size then
    ⟨-1, EINVAL, 0, 0, false, resp.hdrLen, resp.dataLen, 0, [], false⟩
  else if env.sendRes < 0 then
    ⟨-1, env.sendErrno, 1, 1, true, resp.hdrLen, resp.dataLen, 0, [], false⟩
  else
    let t0 : Int := if ep.timeout = 0 then -1 else (ep.timeout : Int)
    let r := mctpLoop ep resp.hdrLen resp.dataLen t0 env.events
    ⟨r.ret, r.err, 1, if r.viaOut then 1 else 0, true,
      r.hdrLen, r.dataLen, r.mic, r.budgets, r.stuck⟩

/-- Arguments of `nvme_mi_admin_get_log` (`struct nvme_get_log_args`),
restricted to the fields the library reads. -/
structure GetLogArgs where
  argsSize : Nat
  len : Nat
  lpo : Nat
  nsid : Nat
  lid : Nat
  lsp : Nat
  lsi : Nat
  rae : Bool
  csi : Nat
  ot : Bool
  uuidx : Nat

/-- One Get Log Page exchange actually issued: buffer offset, chunk
length, the `final` flag of the iteration, and the `cdw10` value sent. -/
structure ExchRec where
  offset : Nat
  chunk : Nat
  final : Bool
  cdw10 : Nat
deriving DecidableEq

/-- Outcome of the `nvme_mi_submit` call inside one
`__nvme_mi_admin_get_log` chunk transfer, indexed per exchange: a
pipeline/transport failure, a non-zero response status byte, or success
with the received data length. -/
inductive InnerOut where
  | terr (rc : Int) (e : Nat)
  | status (s : Nat)
  | ok (ret : Nat)

/-- Result of one `__nvme_mi_admin_get_log` call: return value, errno,
the value left in `*lenp`, and the exchange issued (none when a
pre-check failed before any I/O). -/
structure InnerRes where
  rc : Int
  err : Nat
  lenOut : Nat
  exch : Option ExchRec

/-- The `cdw10` value built by `__nvme_mi_admin_get_log` (mi.c):
`ndw[15:0]` in the top half, the retain-async-event bit at bit 15 forced
whenever the chunk is not final, `lsp` from bit 8, `lid` masked low. -/
def getLogCdw10 (args : GetLogArgs) (len : Nat) (final : Bool) : Nat :=
  let ndw := (len >>> 2) - 1
  ((ndw &&& 0xffff) <<< 16) |||
    ((if (!final || args.rae) then 1 else 0) <<< 15) |||
    (args.lsp <<< 8) ||| (args.lid &&& 0xff)

/-- `__nvme_mi_admin_get_log` (mi.c): the chunk-length check, the
`offset < 0 || offset >= len` check (note: against the chunk length
`*lenp`, not `args->len`), then the exchange. -/
def nvme_mi_admin_get_log_inner (args : GetLogArgs) (offset len : Nat)
    (final : Bool) (out : InnerOut) : InnerRes :=
  if len = 0 ∨ 4096 < len ∨ len < 4 then ⟨-1, EINVAL, len, none⟩
  else if len ≤ offset then ⟨-1, EINVAL, len, none⟩
  else
    let rec1 : ExchRec := ⟨offset, len, final, getLogCdw10 args len final⟩
    match out with
    | .terr rc e => ⟨rc, e, len, some rec1⟩
    | .status s => ⟨(s : Int), 0, len, some rec1⟩
    | .ok r => ⟨0, 0, r, some rec1⟩

/-- Result of the segmentation loop of `nvme_mi_admin_get_log`: the
breaking `rc`, errno, the final `xfer_offset`, the exchanges issued, and
a fuel-exhaustion marker (the fuel passed by the wrapper always
suffices, since every continuing iteration advances the offset). -/
structure LoopOut where
  rc : Int
  err : Nat
  offset : Nat
  trace : List ExchRec
  fuelOut : Bool

/-- The `for (xfer_offset = 0; xfer_offset < args->len;)` loop of
`nvme_mi_admin_get_log` (mi.c), with structural fuel: each iteration
takes `min 4096` of the remainder, computes `final`, calls the inner
transfer, breaks on a non-zero `rc` or a short read, and otherwise
advances by the returned length. -/
def getLogLoop (args : GetLogArgs) (oracle : Nat → InnerOut) :
    Nat → Nat → Nat → LoopOut
  | 0, _, off => ⟨0, 0, off, [], true⟩
  | fuel + 1, k, off =>
    if off < args.len then
      let cur := min 4096 (args.len - off)
      let final := decide (args.len ≤ off + cur)
      let r := nvme_mi_admin_get_log_inner args off cur final (oracle k)
      if r.rc ≠ 0 then ⟨r.rc, r.err, off, r.exch.toList, false⟩
      else if r.lenOut ≠ cur then ⟨0, 0, off + r.lenOut, r.exch.toList, false⟩
      else
        let rest := getLogLoop args oracle fuel (k + 1) (off + r.lenOut)
        ⟨rest.rc, rest.err, rest.offset, r.exch.toList ++ rest.trace, rest.fuelOut⟩
    else ⟨0, 0, off, [], false⟩

/-- Result of `nvme_mi_admin_get_log`: return value, errno, the value
left in `args->len`, and the exchanges issued. -/
structure GetLogRes where
  ret : Int
  err : Nat
  lenOut : Nat
  trace : List ExchRec

/-- `nvme_mi_admin_get_log` (mi.c): the `args_size` check, the 4 KiB
segmentation loop, and the final `args->len` update on success. -/
def nvme_mi_admin_get_log (args : GetLogArgs) (oracle : Nat → InnerOut) :
    GetLogRes :=
  if args.argsSize < nvme_get_log_args_size then ⟨-1, EINVAL, args.len, []⟩
  else
    let l := getLogLoop args oracle (args.len + 1) 0 0
    if l.rc = 0 then ⟨0, l.err, l.offset, l.trace⟩
    else ⟨l.rc, l.err, args.len, l.trace⟩

/-- A concrete valid MPR frame used by the C6 witness: status byte
`NVME_MI_RESP_MPR`, `mprt = 5` (little-endian), followed by the matching
little-endian MIC of the 8-byte message. -/
def mprWitnessFrame : Nat → Nat := fun p =>
  [NVME_MI_MSGTYPE_NVME, 0, 0, 0, NVME_MI_RESP_MPR, 0, 5, 0,
    206, 60, 88, 50].getD p 0

/-- The post-check part of the pipeline always has the transport
invoked, whatever its outcome. -/
theorem nvme_mi_submit_xfer_called (micEnabled : Bool)
    (transport : Frame → Frame → TransportOut) (req resp : Frame) :
    (nvme_mi_submit_xfer micEnabled transport req resp).called = true := by
  unfold nvme_mi_submit_xfer
  cases htr : transport (if micEnabled then { req with mic := req.micCalc } else req) resp with
  | terr rc e => rfl
  | tok resp' =>
    dsimp only
    split_ifs <;> rfl

/-- The transport's wait-time computation agrees with the spec's wording
once the device `mprt` is expressed in 100 ms units. -/
theorem nextMprWait_eq_spec (mprt epTimeout mprtMax : Nat) :
    nextMprWait epTimeout mprtMax (mprt * 100) = specMprWait mprt epTimeout mprtMax := by
  unfold nextMprWait specMprWait
  rcases Nat.eq_zero_or_pos mprt with h | h <;>
    simp only [h, Nat.mul_eq, Nat.zero_mul] <;>
    split_ifs <;> omega

/-- C7: for all byte spans `h` and `p`, the frame MIC computed by the
library equals the bitwise complement of
`crc_update (crc_update 0xFFFFFFFF h) p`, which is also the complement
of a single reflected CRC-32C pass over `h ++ p`; and `crc_update` on a
zero-length span is the identity on the accumulator. -/
theorem crc_mic_spec (h p : List Nat) :
    nvme_mi_calc_req_mic h p
      = compl32 (nvme_mi_crc32_update (nvme_mi_crc32_update 0xffffffff h) p)
    ∧ nvme_mi_calc_req_mic h p = micSpec h p
    ∧ ∀ acc : Nat, nvme_mi_crc32_update acc [] = acc := by
  refine ⟨rfl, ?_, fun _ => rfl⟩
  unfold nvme_mi_calc_req_mic micSpec nvme_mi_crc32_update
  rw [List.foldl_append]

/-- C4: the transport is invoked exactly when all six length/alignment
invariants hold, and any violation yields `-1` with errno `EINVAL`
before any transport call. -/
theorem submit_prechecks_gate_transport (micEnabled : Bool)
    (transport : Frame → Frame → TransportOut) (req resp : Frame) :
    ((nvme_mi_submit micEnabled transport req resp).called ↔ sixInvariants req resp)
    ∧ (¬ sixInvariants req resp →
        (nvme_mi_submit micEnabled transport req resp).ret = -1
        ∧ (nvme_mi_submit micEnabled transport req resp).err = EINVAL
        ∧ (nvme_mi_submit micEnabled transport req resp).called = false) := by
  by_cases hs : sixInvariants req resp
  · obtain ⟨h1, h2, h3, h4, h5, h6⟩ := hs
    unfold nvme_mi_submit
    rw [if_neg (by omega), if_neg (by omega), if_neg (by omega),
      if_neg (by omega), if_neg (by omega), if_neg (by omega)]
    refine ⟨?_, fun hc => absurd ⟨h1, h2, h3, h4, h5, h6⟩ hc⟩
    rw [nvme_mi_submit_xfer_called]
    exact ⟨fun _ => ⟨h1, h2, h3, h4, h5, h6⟩, fun _ => rfl⟩
  · have hv : ¬ (nvme_mi_msg_hdr_size ≤ req.hdr.length ∧ req.hdr.length % 4 = 0 ∧
        req.data.length % 4 = 0 ∧ nvme_mi_msg_hdr_size ≤ resp.hdr.length ∧
        resp.hdr.length % 4 = 0 ∧ resp.data.length % 4 = 0) := hs
    unfold nvme_mi_submit
    split_ifs with g1 g2 g3 g4 g5 g6
    · exact ⟨by simp [hs], fun _ => ⟨rfl, rfl, rfl⟩⟩
    · exact ⟨by simp [hs], fun _ => ⟨rfl, rfl, rfl⟩⟩
    · exact ⟨by simp [hs], fun _ => ⟨rfl, rfl, rfl⟩⟩
    · exact ⟨by simp [hs], fun _ => ⟨rfl, rfl, rfl⟩⟩
    · exact ⟨by simp [hs], fun _ => ⟨rfl, rfl, rfl⟩⟩
    · exact ⟨by simp [hs], fun _ => ⟨rfl, rfl, rfl⟩⟩
    · exact absurd ⟨by omega, by omega, by omega, by omega, by omega, by omega⟩ hv

/-- C4 witness: a frame pair satisfying the six invariants reaches the
transport, and one violating them is rejected without a transport call. -/
theorem submit_prechecks_gate_transport_witness :
    (nvme_mi_submit true (fun _ r => TransportOut.tok r)
      ⟨[0x84, 0, 0, 0], [], 0⟩ ⟨[0, 0, 0, 0, 0, 0, 0, 0], [], 0⟩).called = true
    ∧ (nvme_mi_submit true (fun _ r => TransportOut.tok r)
      ⟨[0x84, 0], [], 0⟩ ⟨[0, 0, 0, 0], [], 0⟩).ret = -1 := by
  constructor
  · exact (submit_prechecks_gate_transport true (fun _ r => TransportOut.tok r)
      ⟨[0x84, 0, 0, 0], [], 0⟩ ⟨[0, 0, 0, 0, 0, 0, 0, 0], [], 0⟩).1.mpr (by decide)
  · exact ((submit_prechecks_gate_transport true (fun _ r => TransportOut.tok r)
      ⟨[0x84, 0], [], 0⟩ ⟨[0, 0, 0, 0], [], 0⟩).2 (by decide)).1

/-- C3 counterexample: a submit call in which the transport exchange
succeeds but the response MIC does not verify returns the positive value
1, not a negative or sentinel value — and an Admin command whose device
status byte is 1 also returns 1, so the sign of the result cannot
distinguish the CRC mismatch from a device status. -/
theorem submit_sign_distinction_counterexample :
    (nvme_mi_submit true (fun _ _ => TransportOut.tok ⟨[1, 2, 3, 4], [], 0⟩)
      ⟨[0x84, 0, 0, 0], [], 0⟩ ⟨[0, 0, 0, 0, 0, 0, 0, 0], [], 0⟩).ret = 1
    ∧ ¬ ((nvme_mi_submit true (fun _ _ => TransportOut.tok ⟨[1, 2, 3, 4], [], 0⟩)
      ⟨[0x84, 0, 0, 0], [], 0⟩ ⟨[0, 0, 0, 0, 0, 0, 0, 0], [], 0⟩).ret < 0)
    ∧ (nvme_mi_admin_identify_part nvme_identify_args_size 16
      (AdminOut.aok 1 0 16)).ret = 1 := by
  decide

/-- C3 amended: a non-zero device status byte is returned verbatim as a
positive value and a transport failure propagates its (negative) return
value, but a MIC verification mismatch makes `nvme_mi_submit` return the
positive value 1, so the sign alone cannot distinguish a MIC mismatch
from a device status byte of 1. -/
theorem submit_sign_distinction_amended (req resp resp' : Frame) (rc : Int)
    (e : Nat) (micEnabled : Bool) (argsSize size st c0 dl : Nat) :
    (sixInvariants req resp → resp'.mic ≠ resp'.micCalc →
      (nvme_mi_submit true (fun _ _ => TransportOut.tok resp') req resp).ret = 1)
    ∧ (sixInvariants req resp →
      (nvme_mi_submit micEnabled (fun _ _ => TransportOut.terr rc e) req resp).ret = rc)
    ∧ (nvme_identify_args_size ≤ argsSize → 0 < size → size ≤ 0xffffffff → 0 < st →
      (nvme_mi_admin_identify_part argsSize size (AdminOut.aok st c0 dl)).ret = (st : Int)
      ∧ (0 : Int) < (st : Int)) := by
  refine ⟨?_, ?_, ?_⟩
  · intro hs hmic
    obtain ⟨h1, h2, h3, h4, h5, h6⟩ := hs
    have hv : nvme_mi_verify_resp_mic resp' = 1 := by
      unfold nvme_mi_verify_resp_mic
      rw [if_pos hmic]
    unfold nvme_mi_submit
    rw [if_neg (by omega), if_neg (by omega), if_neg (by omega),
      if_neg (by omega), if_neg (by omega), if_neg (by omega)]
    simp [nvme_mi_submit_xfer, hv]
  · intro hs
    obtain ⟨h1, h2, h3, h4, h5, h6⟩ := hs
    unfold nvme_mi_submit
    rw [if_neg (by omega), if_neg (by omega), if_neg (by omega),
      if_neg (by omega), if_neg (by omega), if_neg (by omega)]
    rfl
  · intro ha hsz hub hst
    unfold nvme_mi_admin_identify_part
    rw [if_neg (by omega), if_neg (by omega)]
    have hne : st ≠ 0 := by omega
    dsimp only
    rw [if_pos hne]
    exact ⟨rfl, by exact_mod_cast hst⟩

/-- C3 amended witness: the three behaviours at concrete inputs. -/
theorem submit_sign_distinction_amended_witness :
    (nvme_mi_submit true (fun _ _ => TransportOut.tok ⟨[1, 2, 3, 4], [], 0⟩)
      ⟨[0x84, 0, 0, 0], [], 0⟩ ⟨[0, 0, 0, 0], [], 0⟩).ret = 1
    ∧ (nvme_mi_submit false (fun _ _ => TransportOut.terr (-5) 13)
      ⟨[0x84, 0, 0, 0], [], 0⟩ ⟨[0, 0, 0, 0], [], 0⟩).ret = -5
    ∧ (nvme_mi_admin_identify_part 56 16 (AdminOut.aok 3 0 16)).ret = (3 : Int) := by
  have h := submit_sign_distinction_amended ⟨[0x84, 0, 0, 0], [], 0⟩
    ⟨[0, 0, 0, 0], [], 0⟩ ⟨[1, 2, 3, 4], [], 0⟩ (-5) 13 false 56 16 3 0 16
  exact ⟨h.1 (by decide) (by decide), h.2.1 (by decide),
    (h.2.2 (by decide) (by decide) (by decide) (by decide)).1⟩

/-- C8: the generic Admin transfer rejects every call with both a
request payload and an expected response payload: it returns `-1` with
errno `EINVAL` and the submit pipeline (hence any I/O) is never
reached. -/
theorem admin_xfer_bidirectional_reject (reqDataSize respDataSize : Nat)
    (respDataOffset : Int) (out : XferOut)
    (h1 : 0 < reqDataSize) (h2 : 0 < respDataSize) :
    (nvme_mi_admin_xfer reqDataSize respDataSize respDataOffset out).ret = -1
    ∧ (nvme_mi_admin_xfer reqDataSize respDataSize respDataOffset out).err = EINVAL
    ∧ (nvme_mi_admin_xfer reqDataSize respDataSize respDataOffset out).reachedSubmit = false := by
  unfold nvme_mi_admin_xfer
  split_ifs with g1 g2 g3 g4 g5
  · exact ⟨rfl, rfl, rfl⟩
  · exact ⟨rfl, rfl, rfl⟩
  · exact ⟨rfl, rfl, rfl⟩
  · exact ⟨rfl, rfl, rfl⟩
  · exact absurd ⟨by omega, by omega⟩ g4
  · exact absurd ⟨by omega, by omega⟩ g4

/-- C8 witness: a concrete bidirectional call is rejected without I/O. -/
theorem admin_xfer_bidirectional_reject_witness :
    (nvme_mi_admin_xfer 8 8 0 (XferOut.xok 8)).ret = -1
    ∧ (nvme_mi_admin_xfer 8 8 0 (XferOut.xok 8)).err = EINVAL
    ∧ (nvme_mi_admin_xfer 8 8 0 (XferOut.xok 8)).reachedSubmit = false := by
  have h := admin_xfer_bidirectional_reject 8 8 0 (XferOut.xok 8) (by decide) (by decide)
  exact h

/-- C5: under the receive-path guards, the reconciliation always yields
adjusted lengths with `hdr + data + 4 = L`, and the MIC word stored is
the little-endian decoding of the last four bytes received. -/
theorem mctp_reconcile_lengths (hdrLen dataLen L : Nat) (read : Nat → Nat)
    (h4 : L % 4 = 0) (h12 : 12 ≤ L) (hub : L ≤ hdrLen + dataLen + 4) :
    (mctpReconcile hdrLen dataLen L read).hdrLen
      + (mctpReconcile hdrLen dataLen L read).dataLen + 4 = L
    ∧ (mctpReconcile hdrLen dataLen L read).mic
      = le32 (read (L - 4)) (read (L - 3)) (read (L - 2)) (read (L - 1)) := by
  unfold mctpReconcile
  split_ifs with g1 g2
  · refine ⟨by simp only; omega, ?_⟩
    have e0 : hdrLen + dataLen = L - 4 := by omega
    have f1 : L - 4 + 1 = L - 3 := by omega
    have f2 : L - 4 + 2 = L - 2 := by omega
    have f3 : L - 4 + 3 = L - 1 := by omega
    simp only [e0, f1, f2, f3]
  · exact ⟨by simp only; omega, rfl⟩
  · refine ⟨by simp only; omega, ?_⟩
    have e0 : hdrLen + (L - hdrLen - 4) = L - 4 := by omega
    have f1 : L - 4 + 1 = L - 3 := by omega
    have f2 : L - 4 + 2 = L - 2 := by omega
    have f3 : L - 4 + 3 = L - 1 := by omega
    simp only [e0, f1, f2, f3]

/-- C5 witness: a short response (L = 16 against a 20-byte header
buffer) reconciles to 12 + 0 + 4 = 16 with the MIC from bytes 12..15. -/
theorem mctp_reconcile_lengths_witness :
    (mctpReconcile 20 0 16 (fun p => p)).hdrLen
      + (mctpReconcile 20 0 16 (fun p => p)).dataLen + 4 = 16
    ∧ (mctpReconcile 20 0 16 (fun p => p)).mic = le32 12 13 14 15 := by
  have h := mctp_reconcile_lengths 20 0 16 (fun p => p) (by decide) (by decide) (by decide)
  simpa using h

/-- C6: a received frame of exactly the MPR response size whose status
byte is the MPR status code and whose advertised-message CRC matches the
received MIC is classified as MPR, and the loop re-enters the receive
wait with budget `t` = the device `mprt` (little-endian, 100 ms units)
in milliseconds when positive, else the endpoint timeout when positive,
else 0xFFFF, clamped to `mprt_max` whenever that is positive. -/
theorem mctp_mpr_wait (ep : MctpEp) (hdrLen dataLen : Nat) (t : Int)
    (n : Int) (e : Nat) (frame : Nat → Nat) (rest : List MctpEv)
    (hlen : n.toNat + 1 = nvme_mi_msg_resp_mpr_size + 4) (hpos : 0 ≤ n)
    (hstatus : mctpRead frame 4 = NVME_MI_RESP_MPR)
    (hmic : mprMicRead hdrLen (mctpRead frame)
      = compl32 (nvme_mi_crc32_update 0xffffffff (mprMsgBytes (mctpRead frame)))) :
    nvme_mi_mctp_resp_is_mpr hdrLen (n.toNat + 1) (mctpRead frame) = true
    ∧ mctpLoop ep hdrLen dataLen t (MctpEv.recv n e frame :: rest)
      = { mctpLoop ep hdrLen dataLen
            (Int.ofNat (specMprWait (le16 (mctpRead frame 6) (mctpRead frame 7))
              ep.timeout ep.mprtMax)) rest with
          budgets := t :: (mctpLoop ep hdrLen dataLen
            (Int.ofNat (specMprWait (le16 (mctpRead frame 6) (mctpRead frame 7))
              ep.timeout ep.mprtMax)) rest).budgets } := by
  have hlen' : n.toNat + 1 = 12 := by
    simpa [nvme_mi_msg_resp_mpr_size] using hlen
  have hmpr : nvme_mi_mctp_resp_is_mpr hdrLen (n.toNat + 1) (mctpRead frame) = true := by
    unfold nvme_mi_mctp_resp_is_mpr
    rw [if_neg (by simp [hlen', nvme_mi_msg_resp_mpr_size]),
      if_neg (by simp [hstatus]), if_neg (by simp [hmic])]
  refine ⟨hmpr, ?_⟩
  have hn0 : ¬ n < 0 := by omega
  have hnz : ¬ n = 0 := by
    intro hz
    rw [hz] at hlen'
    simp at hlen'
  have hg1 : ¬ (n.toNat + 1 < nvme_mi_msg_resp_size + 4) := by
    rw [hlen']
    decide
  have hg2 : ¬ ((n.toNat + 1) % 4 ≠ 0) := by
    rw [hlen']
    decide
  simp only [mctpLoop]
  rw [if_neg hn0, if_neg hnz, if_neg hg1, if_neg hg2, if_pos hmpr]
  have ht : mprTimeOf (mctpRead frame)
      = le16 (mctpRead frame 6) (mctpRead frame 7) * 100 := rfl
  rw [ht, nextMprWait_eq_spec]

/-- C6 witness: a concrete valid MPR frame with `mprt = 5` makes the
loop retry with a 500 ms budget (endpoint timeout 250 ms, no clamp). -/
theorem mctp_mpr_wait_witness :
    nvme_mi_mctp_resp_is_mpr 16 ((11 : Int).toNat + 1) (mctpRead mprWitnessFrame) = true
    ∧ mctpLoop ⟨250, 0⟩ 16 0 250 [MctpEv.recv 11 0 mprWitnessFrame]
      = { mctpLoop ⟨250, 0⟩ 16 0
            (Int.ofNat (specMprWait (le16 (mctpRead mprWitnessFrame 6)
              (mctpRead mprWitnessFrame 7)) 250 0)) [] with
          budgets := 250 :: (mctpLoop ⟨250, 0⟩ 16 0
            (Int.ofNat (specMprWait (le16 (mctpRead mprWitnessFrame 6)
              (mctpRead mprWitnessFrame 7)) 250 0)) []).budgets } := by
  have h := mctp_mpr_wait ⟨250, 0⟩ 16 0 250 11 0 mprWitnessFrame []
    (by decide) (by decide) (by decide) (by decide)
  exact h

/-- C2 evaluation at the failing inputs: on the poll-timeout exit the
tag is allocated but never dropped (`dropCalls = 0`), likewise on a poll
error, whereas a receive-failure exit does drop it exactly once — so the
tag is not released on every exit path as the spec requires. -/
theorem mctp_tag_drop_code_bug :
    ((nvme_mi_mctp_submit ⟨5000, 0⟩ ⟨16, 0⟩ ⟨1, 0, [MctpEv.pollTimeout]⟩).allocCalls = 1
      ∧ (nvme_mi_mctp_submit ⟨5000, 0⟩ ⟨16, 0⟩ ⟨1, 0, [MctpEv.pollTimeout]⟩).dropCalls = 0
      ∧ (nvme_mi_mctp_submit ⟨5000, 0⟩ ⟨16, 0⟩ ⟨1, 0, [MctpEv.pollTimeout]⟩).ret = -1
      ∧ (nvme_mi_mctp_submit ⟨5000, 0⟩ ⟨16, 0⟩ ⟨1, 0, [MctpEv.pollTimeout]⟩).err = ETIMEDOUT)
    ∧ ((nvme_mi_mctp_submit ⟨5000, 0⟩ ⟨16, 0⟩ ⟨1, 0, [MctpEv.pollErr 13]⟩).allocCalls = 1
      ∧ (nvme_mi_mctp_submit ⟨5000, 0⟩ ⟨16, 0⟩ ⟨1, 0, [MctpEv.pollErr 13]⟩).dropCalls = 0)
    ∧ ((nvme_mi_mctp_submit ⟨5000, 0⟩ ⟨16, 0⟩
        ⟨1, 0, [MctpEv.recv (-1) 5 (fun _ => 0)]⟩).dropCalls = 1
      ∧ (nvme_mi_mctp_submit ⟨5000, 0⟩ ⟨16, 0⟩
        ⟨1, 0, [MctpEv.recv (-1) 5 (fun _ => 0)]⟩).ret = -1) := by
  decide

/-- C9: the MCTP transport rejects a response header buffer smaller than
the full generic response structure (8 bytes) with EINVAL, before
allocating a tag and before sending — a stricter precondition than the
pipeline's own minimal 4-byte header requirement, which a 4-byte,
4-aligned header satisfies. -/
theorem mctp_submit_resp_hdr_precheck (ep : MctpEp) (resp : MctpResp)
    (env : MctpEnv) (h : resp.hdrLen < nvme_mi_msg_resp_size) :
    (nvme_mi_mctp_submit ep resp env).ret = -1
    ∧ (nvme_mi_mctp_submit ep resp env).err = EINVAL
    ∧ (nvme_mi_mctp_submit ep resp env).allocCalls = 0
    ∧ (nvme_mi_mctp_submit ep resp env).sendCalled = false
    ∧ nvme_mi_msg_hdr_size ≤ 4 ∧ 4 % 4 = 0 ∧ 4 < nvme_mi_msg_resp_size := by
  unfold nvme_mi_mctp_submit
  rw [if_pos h]
  exact ⟨rfl, rfl, rfl, rfl, by decide, by decide, by decide⟩

/-- C9 witness: a 4-byte response header buffer — pipeline-acceptable —
is rejected by the MCTP transport before any tag or send. -/
theorem mctp_submit_resp_hdr_precheck_witness :
    (nvme_mi_mctp_submit ⟨0, 0⟩ ⟨4, 0⟩ ⟨1, 0, []⟩).ret = -1
    ∧ (nvme_mi_mctp_submit ⟨0, 0⟩ ⟨4, 0⟩ ⟨1, 0, []⟩).err = EINVAL
    ∧ (nvme_mi_mctp_submit ⟨0, 0⟩ ⟨4, 0⟩ ⟨1, 0, []⟩).allocCalls = 0
    ∧ (nvme_mi_mctp_submit ⟨0, 0⟩ ⟨4, 0⟩ ⟨1, 0, []⟩).sendCalled = false
    ∧ nvme_mi_msg_hdr_size ≤ 4 ∧ 4 % 4 = 0 ∧ 4 < nvme_mi_msg_resp_size := by
  have h := mctp_submit_resp_hdr_precheck ⟨0, 0⟩ ⟨4, 0⟩ ⟨1, 0, []⟩ (by decide)
  exact h

/-- C1 evaluation at the failing input: a Get Log Page request of total
length 8192 with a device returning every requested byte issues only one
exchange — the second chunk (offset 4096, chunk 4096) is rejected by the
inner transfer's `offset >= len` pre-check before any I/O — and the call
returns `-1`/EINVAL instead of succeeding with two exchanges and all
8192 bytes. -/
theorem get_log_segmentation_code_bug :
    (nvme_mi_admin_get_log ⟨64, 8192, 0, 0, 0, 0, 0, false, 0, false, 0⟩
      (fun _ => InnerOut.ok 4096)).ret = -1
    ∧ (nvme_mi_admin_get_log ⟨64, 8192, 0, 0, 0, 0, 0, false, 0, false, 0⟩
      (fun _ => InnerOut.ok 4096)).err = EINVAL
    ∧ ((nvme_mi_admin_get_log ⟨64, 8192, 0, 0, 0, 0, 0, false, 0, false, 0⟩
      (fun _ => InnerOut.ok 4096)).trace.map (fun r => (r.offset, r.chunk)))
      = [(0, 4096)]
    ∧ (nvme_mi_admin_get_log_inner ⟨64, 8192, 0, 0, 0, 0, 0, false, 0, false, 0⟩
      4096 4096 true (InnerOut.ok 4096)).exch = none
    ∧ (nvme_mi_admin_get_log_inner ⟨64, 8192, 0, 0, 0, 0, 0, false, 0, false, 0⟩
      4096 4096 true (InnerOut.ok 4096)).rc = -1 := by
  decide

/-- C10: a Get Log Page request with `args->len = 0` and a valid
`args_size` enters the loop body zero times: no exchange is issued, the
call succeeds, and `args->len` is left at 0. -/
theorem get_log_zero_len_noop (args : GetLogArgs) (oracle : Nat → InnerOut)
    (hsize : nvme_get_log_args_size ≤ args.argsSize) (hlen : args.len = 0) :
    (nvme_mi_admin_get_log args oracle).ret = 0
    ∧ (nvme_mi_admin_get_log args oracle).lenOut = 0
    ∧ (nvme_mi_admin_get_log args oracle).trace = [] := by
  unfold nvme_mi_admin_get_log
  rw [if_neg (by omega)]
  simp [getLogLoop, hlen]

/-- C10 witness: a concrete zero-length request is a successful no-op. -/
theorem get_log_zero_len_noop_witness :
    (nvme_mi_admin_get_log ⟨64, 0, 0, 0, 0, 0, 0, false, 0, false, 0⟩
      (fun _ => InnerOut.ok 0)).ret = 0
    ∧ (nvme_mi_admin_get_log ⟨64, 0, 0, 0, 0, 0, 0, false, 0, false, 0⟩
      (fun _ => InnerOut.ok 0)).lenOut = 0
    ∧ (nvme_mi_admin_get_log ⟨64, 0, 0, 0, 0, 0, 0, false, 0, false, 0⟩
      (fun _ => InnerOut.ok 0)).trace = [] := by
  have h := get_log_zero_len_noop ⟨64, 0, 0, 0, 0, 0, 0, false, 0, false, 0⟩
    (fun _ => InnerOut.ok 0) (by decide) rfl
  exact h
